import Mathlib

/-!
Verification of the rp-rot on-device runtime (src/Embedded/rp-rot) against its
natural-language specification.  The Rust modules are shallowly embedded as
executable Lean definitions: asynchronous waits become recorded durations,
socket and radio I/O outcomes become explicit environment/oracle parameters,
and the control flow, counters and string handling are translated directly
from the source.
-/

namespace RpRot

/-! ## Error types (src/error/mod.rs) -/

/-- Errors that can occur during telemetry operations (enum TelemetryError). -/
inductive TelemetryError where
  | DnsResolve
  | Connect
  | Write
  | Read
  | InvalidResponse
deriving DecidableEq

/-- Errors that can occur during WiFi operations (enum WiFiError).
JoinFailed carries the chip status code (u32 in the source). -/
inductive WiFiError where
  | JoinFailed (status : Nat)
  | MaxRetriesExceeded
  | InitFailed
  | Join
  | Timeout
deriving DecidableEq

/-! ## WiFi driver (src/drivers/wifi.rs) -/

/-- WiFi connection parameters (struct WiFiConfig in src/config/wifi.rs).
max_retries is u8 and retry_delay_secs is u64 in the source; both are
modelled as Nat since the embedded loop only compares and copies them. -/
structure WiFiConfig where
  network : String
  password : String
  max_retries : Nat
  retry_delay_secs : Nat

/-- The retry loop in WiFiDriver::connect_with_retry.  The oracle `join`
gives the outcome of the attempt made when the retry counter has value
`retry_count`: `none` means the join succeeded, `some status` means it
failed with that chip status code.  Returns the result together with the
number of join attempts performed and the list of delays (in seconds)
awaited between attempts, in order. -/
def connectLoop (join : Nat → Option Nat) (max_retries retry_delay_secs : Nat)
    (retry_count : Nat) : Except WiFiError Unit × Nat × List Nat :=
  match join retry_count with
  | none => (Except.ok (), 1, [])
  | some _ =>
    if h : max_retries ≤ retry_count + 1 then
      (Except.error WiFiError.Timeout, 1, [])
    else
      let rest := connectLoop join max_retries retry_delay_secs (retry_count + 1)
      (rest.1, rest.2.1 + 1, retry_delay_secs :: rest.2.2)
termination_by max_retries - retry_count
decreasing_by omega

/-- WiFiDriver::connect_with_retry: reject empty network or password with
WiFiError::Join before any attempt, otherwise run the retry loop starting
from a zero retry counter. -/
def connectWithRetry (config : WiFiConfig) (join : Nat → Option Nat) :
    Except WiFiError Unit × Nat × List Nat :=
  if config.network.isEmpty || config.password.isEmpty then
    (Except.error WiFiError.Join, 0, [])
  else
    connectLoop join config.max_retries config.retry_delay_secs 0

/-! ## Network stack supervisor (src/network/mod.rs) -/

/-- One polling loop of NetworkStack::setup_and_wait: while the status
predicate is false and the countdown is positive, wait `wait_ms`
milliseconds and decrement the countdown.  `status` is the polled predicate
as a function of elapsed milliseconds, `now` is the elapsed time on entry,
and the result is the elapsed time when the loop exits. -/
def pollLoopMs (status : Nat → Bool) (wait_ms now : Nat) : Nat → Nat
  | 0 => now
  | remaining + 1 =>
    if status now then now
    else pollLoopMs status wait_ms (now + wait_ms) remaining

/-- NetworkStack::setup_and_wait: three bounded polling phases — DHCP
(countdown 30, 1000 ms waits), link (countdown 10, 500 ms waits), stack
configuration (countdown 10, 1000 ms waits) — each followed by a final check
that aborts the whole sequence on failure, then a fixed 2000 ms stabilization
wait.  Returns whether bring-up succeeded and the total elapsed waiting time
in milliseconds. -/
def setupAndWait (is_config_up is_link_up : Nat → Bool) : Bool × Nat :=
  let t1 := pollLoopMs is_config_up 1000 0 30
  if ! is_config_up t1 then (false, t1)
  else
    let t2 := pollLoopMs is_link_up 500 t1 10
    if ! is_link_up t2 then (false, t2)
    else
      let t3 := pollLoopMs is_config_up 1000 t2 10
      if ! is_config_up t3 then (false, t3)
      else (true, t3 + 2000)

/-! ## Telemetry agent (src/tasks/telemetry.rs) -/

/-- Bool test that `pat` is an initial segment of `s` (character lists). -/
def leadingSeg : List Char → List Char → Bool
  | [], _ => true
  | _ :: _, [] => false
  | p :: ps, c :: cs => p == c && leadingSeg ps cs

/-- Rust str::contains restricted to plain string patterns: `pat` occurs as a
contiguous substring of `s`. -/
def containsSub (pat : List Char) : List Char → Bool
  | [] => leadingSeg pat []
  | c :: cs => leadingSeg pat (c :: cs) || containsSub pat cs

/-- String form of `containsSub`, mirroring `response.contains(pat)`. -/
def strContains (s pat : String) : Bool :=
  containsSub pat.data s.data

/-- The JSON body formatted into `telemetry_data` by send_telemetry.  The
device id is the string literal "1" in the format string; the two readings
arrive already formatted ("{:.1}" and "{:.2}" of two f32 values — float
formatting is abstracted as the input strings). -/
def telemetryData (temp volt : String) : String :=
  "\x7b\"device_id\":\"1\",\"telemetry_data\":\x7b\"temperature\":\"" ++ temp ++
    "\",\"voltage\":\"" ++ volt ++ "\",\"status\":\"active\"\x7d\x7d"

/-- Written from the spec's words, for comparison with `telemetryData`: a
body of the form with device_id a parameter — the build-time device
identifier — followed by the string-valued readings. -/
def specTelemetryBody (device_id temp volt : String) : String :=
  "\x7b\"device_id\":\"" ++ device_id ++
    "\",\"telemetry_data\":\x7b\"temperature\":\"" ++ temp ++
    "\",\"voltage\":\"" ++ volt ++ "\",\"status\":\"active\"\x7d\x7d"

/-- Outcomes of the fallible I/O steps of one send_telemetry call.
`dns_addrs` is the DNS query result (`none` = query error); `read_result`
is the decoded response text (`none` = socket read error; the source maps
invalid UTF-8 to the fallback text "Invalid UTF-8" rather than failing, so
the decoded value is always a string). -/
structure SendEnv where
  dns_addrs : Option (List Nat)
  connect_ok : Bool
  write_ok : Bool
  read_result : Option String

/-- send_telemetry, step for step: DNS query, first-address lookup, connect,
request write, response read, then the response check.  The second component
records the logged classification of the response — `some true` when the
text contains "HTTP/1.1 200" or "HTTP/1.0 200" (info "Telemetry accepted"),
`some false` otherwise (warn "non-200 status"), `none` when no response was
ever read.  After the check the source closes the socket and returns Ok
regardless of the classification. -/
def sendTelemetry (env : SendEnv) : Except TelemetryError Unit × Option Bool :=
  match env.dns_addrs with
  | none => (Except.error TelemetryError.DnsResolve, none)
  | some addrs =>
    match addrs.head? with
    | none => (Except.error TelemetryError.DnsResolve, none)
    | some _ =>
      if ! env.connect_ok then (Except.error TelemetryError.Connect, none)
      else if ! env.write_ok then (Except.error TelemetryError.Write, none)
      else
        match env.read_result with
        | none => (Except.error TelemetryError.Read, none)
        | some response =>
          let accepted := strContains response "HTTP/1.1 200" ||
            strContains response "HTTP/1.0 200"
          (Except.ok (), some accepted)

/-- Interval counted by telemetry_task between sends: a send is attempted on
every iteration whose counter is a multiple of this constant. -/
def TELEMETRY_SEND_EVERY : Nat := 30

/-- Observable events of the telemetry_task loop. -/
inductive TelemetryEvent where
  | sendAttempt (succeeded : Bool)
  | waitMs (ms : Nat)
deriving DecidableEq

/-- One iteration of the telemetry_task loop: when the interval counter is a
multiple of TELEMETRY_SEND_EVERY, a send is attempted (its outcome, given by
the oracle, is only matched on for logging); every iteration ends with a
fixed 1000 ms wait.  The source then increments the counter and loops. -/
def telemetryStep (sendResult : Nat → Bool) (telemetry_interval : Nat) :
    List TelemetryEvent :=
  (if telemetry_interval % TELEMETRY_SEND_EVERY == 0 then
    [TelemetryEvent.sendAttempt (sendResult telemetry_interval)]
  else []) ++ [TelemetryEvent.waitMs 1000]

/-- The trace of the first `k` iterations of the telemetry_task loop,
starting from interval counter `i`. -/
def telemetryRun (sendResult : Nat → Bool) (i : Nat) : Nat → List TelemetryEvent
  | 0 => []
  | k + 1 => telemetryStep sendResult i ++ telemetryRun sendResult (i + 1) k

/-- The waits, in milliseconds and in order, of a telemetry trace. -/
def waitsOf (events : List TelemetryEvent) : List Nat :=
  events.filterMap fun e =>
    match e with
    | TelemetryEvent.waitMs ms => some ms
    | TelemetryEvent.sendAttempt _ => none

/-- The iteration indices at which a trace from counter 0 attempts sends. -/
def attemptCount (events : List TelemetryEvent) : Nat :=
  (events.filterMap fun e =>
    match e with
    | TelemetryEvent.sendAttempt b => some b
    | TelemetryEvent.waitMs _ => none).length

/-! ## Device configuration data model (src/config/device.rs) -/

/-- Maximum length of a device ID string. -/
def MAX_DEVICE_ID_LEN : Nat := 16

/-- Maximum length of a configuration value string. -/
def MAX_VALUE_LEN : Nat := 16

/-- Maximum number of device configurations in a response: the capacity of
the heapless Vec behind DeviceConfigResponse, fixed at build time. -/
def MAX_CONFIGS : Nat := 1

/-- Configuration settings for a device (struct Config): an optional LED
state string.  The source strings are heapless with capacities
MAX_VALUE_LEN; the length bounds play no role in the verified paths and the
strings are modelled plainly. -/
structure Config where
  LED : Option String
deriving DecidableEq

/-- A configuration item for one device (struct DeviceConfigItem). -/
structure DeviceConfigItem where
  device_id : String
  config : Config
deriving DecidableEq

/-- heapless Vec push with capacity `cap`: fails when the vector is full. -/
def vecPush {α : Type} (cap : Nat) (v : List α) (x : α) : Option (List α) :=
  if v.length < cap then some (v ++ [x]) else none

/-- Deserialization of a JSON sequence into a heapless Vec of capacity
`cap`, as serde does for DeviceConfigResponse: starting from the elements
collected so far, push each further element in order; a push onto a full
vector aborts the whole parse with an error (`none`). -/
def deserializeBoundedSeq {α : Type} (cap : Nat) : List α → List α → Option (List α)
  | acc, [] => some acc
  | acc, x :: xs =>
    match vecPush cap acc x with
    | none => none
    | some acc2 => deserializeBoundedSeq cap acc2 xs

/-! ## Configuration fetch task (src/tasks/config_fetch.rs) -/

/-- The header-skipping step of fetch_and_update_config: locate the first
opening square bracket in the response text and keep everything from that
character on (`response.find` and the slice `response[json_start..]`);
`none` when the response has no JSON array. -/
def dropBeforeBracket : List Char → Option (List Char)
  | [] => none
  | c :: cs => if c == '[' then some (c :: cs) else dropBeforeBracket cs

/-- Outcomes of the fallible I/O steps of one fetch_and_update_config call.
`dns_addrs` is the DNS query result (`none` = query error); `read_bytes` is
the raw response read from the socket (`none` = read error), carried as the
text it spells when it is valid UTF-8; `utf8_ok` is whether those bytes are
valid UTF-8. -/
structure FetchEnv where
  dns_addrs : Option (List Nat)
  connect_ok : Bool
  write_ok : Bool
  read_bytes : Option String
  utf8_ok : Bool

/-- fetch_and_update_config, step for step.  `tokenize` abstracts the
grammar level of the external serde_json_core parser: it yields the sequence
of configuration entries spelled out by the JSON array text, or `none` when
the text is not a well-formed array of entries; the capacity behavior of the
heapless DeviceConfigResponse vector is then modelled exactly by
`deserializeBoundedSeq MAX_CONFIGS`.  The result is the error message of the
failing step, or the configuration item that the task passes on to
set_device_config. -/
def fetchAndUpdateConfig (tokenize : String → Option (List DeviceConfigItem))
    (DEVICE_ID : String) (env : FetchEnv) : Except String DeviceConfigItem :=
  match env.dns_addrs with
  | none => Except.error "DNS resolution failed"
  | some addrs =>
    match addrs.head? with
    | none => Except.error "No IP addresses returned from DNS"
    | some _ =>
      if ! env.connect_ok then Except.error "Connection failed"
      else if ! env.write_ok then Except.error "Write failed"
      else
        match env.read_bytes with
        | none => Except.error "Read failed"
        | some response =>
          if ! env.utf8_ok then Except.error "Invalid UTF-8"
          else
            match dropBeforeBracket response.data with
            | none => Except.error "No JSON array in response"
            | some json_chars =>
              match tokenize (String.mk json_chars) with
              | none => Except.error "JSON parse error"
              | some elems =>
                match deserializeBoundedSeq MAX_CONFIGS [] elems with
                | none => Except.error "JSON parse error"
                | some parsed =>
                  match parsed.find? (fun item => item.device_id == DEVICE_ID) with
                  | none => Except.error "Device config not found"
                  | some device_config => Except.ok device_config

/-! ## Shared configuration store (src/utils/config_store.rs) -/

/-- The process state touched by the configuration store: whether
DEVICE_CONFIG_REF has been set by init_config_store, and the contents of the
mutex-protected slot. -/
structure StoreWorld where
  ref_set : Bool
  slot : Option DeviceConfigItem
deriving DecidableEq

/-- The state at startup, before any call to init_config_store:
DEVICE_CONFIG_REF is None and the StaticCell is uninitialized. -/
def startupWorld : StoreWorld :=
  { ref_set := false, slot := none }

/-- init_config_store: initialize the StaticCell with a mutex around an
empty (None) configuration and set the global reference to it. -/
def initConfigStore (_w : StoreWorld) : StoreWorld :=
  { ref_set := true, slot := none }

/-- set_device_config: look up the global reference — panicking with
"Config store not initialized" when it is unset — then lock the mutex and
replace the slot contents.  The panic is modelled as Except.error carrying
the panic message. -/
def setDeviceConfig (w : StoreWorld) (config : DeviceConfigItem) :
    Except String StoreWorld :=
  if w.ref_set then Except.ok { w with slot := some config }
  else Except.error "Config store not initialized"

/-- get_device_config: look up the global reference — panicking with
"Config store not initialized" when it is unset — then lock the mutex and
return a clone of the slot contents, leaving the slot unchanged. -/
def getDeviceConfig (w : StoreWorld) :
    Except String (Option DeviceConfigItem × StoreWorld) :=
  if w.ref_set then Except.ok (w.slot, w)
  else Except.error "Config store not initialized"

/-- A step of the config_fetch_task loop: run one fetch cycle and, exactly
when it succeeds, pass the found configuration to set_device_config; on any
error the cycle only logs and the slot is untouched.  The world is known to
be initialized when the task runs, so the set cannot panic; the panic-free
composition is stated separately for C10. -/
def fetchCycle (tokenize : String → Option (List DeviceConfigItem))
    (DEVICE_ID : String) (slot : Option DeviceConfigItem) (env : FetchEnv) :
    Option DeviceConfigItem :=
  match fetchAndUpdateConfig tokenize DEVICE_ID env with
  | Except.ok device_config => some device_config
  | Except.error _ => slot

/-- The config_fetch_task loop over a list of per-cycle environments. -/
def runFetchCycles (tokenize : String → Option (List DeviceConfigItem))
    (DEVICE_ID : String) (slot : Option DeviceConfigItem) :
    List FetchEnv → Option DeviceConfigItem
  | [] => slot
  | env :: envs =>
    runFetchCycles tokenize DEVICE_ID (fetchCycle tokenize DEVICE_ID slot env) envs

/-- The configurations stored by the successful cycles of an environment
list, in order. -/
def storedConfigs (tokenize : String → Option (List DeviceConfigItem))
    (DEVICE_ID : String) (envs : List FetchEnv) : List DeviceConfigItem :=
  envs.filterMap fun env => (fetchAndUpdateConfig tokenize DEVICE_ID env).toOption

/-- The operations a task can perform against the configuration store. -/
inductive StoreOp where
  | setConfig (config : DeviceConfigItem)
  | getConfig

/-- Run a sequence of store operations, threading the world and stopping at
the first panic. -/
def runStoreOps (w : StoreWorld) : List StoreOp → Except String StoreWorld
  | [] => Except.ok w
  | op :: ops =>
    match op with
    | StoreOp.setConfig config =>
      match setDeviceConfig w config with
      | Except.error e => Except.error e
      | Except.ok w2 => runStoreOps w2 ops
    | StoreOp.getConfig =>
      match getDeviceConfig w with
      | Except.error e => Except.error e
      | Except.ok (_, w2) => runStoreOps w2 ops

/-! ## Helper lemmas -/

theorem waitsOf_append (a b : List TelemetryEvent) :
    waitsOf (a ++ b) = waitsOf a ++ waitsOf b := by
  simp [waitsOf]

theorem attemptCount_append (a b : List TelemetryEvent) :
    attemptCount (a ++ b) = attemptCount a + attemptCount b := by
  simp [attemptCount]

theorem waitsOf_step (sendResult : Nat → Bool) (i : Nat) :
    waitsOf (telemetryStep sendResult i) = [1000] := by
  by_cases h : i % TELEMETRY_SEND_EVERY == 0 <;> simp [telemetryStep, waitsOf, h]

theorem attemptCount_step (sendResult : Nat → Bool) (i : Nat) :
    attemptCount (telemetryStep sendResult i) =
      if i % TELEMETRY_SEND_EVERY == 0 then 1 else 0 := by
  by_cases h : i % TELEMETRY_SEND_EVERY == 0 <;> simp [telemetryStep, attemptCount, h]

theorem fetchCycle_error (tokenize : String → Option (List DeviceConfigItem))
    (DEVICE_ID : String) (slot : Option DeviceConfigItem) (env : FetchEnv)
    (e : String) (h : fetchAndUpdateConfig tokenize DEVICE_ID env = Except.error e) :
    fetchCycle tokenize DEVICE_ID slot env = slot := by
  simp [fetchCycle, h]

theorem runFetchCycles_eq (tokenize : String → Option (List DeviceConfigItem))
    (DEVICE_ID : String) :
    ∀ (envs : List FetchEnv) (slot : Option DeviceConfigItem),
      runFetchCycles tokenize DEVICE_ID slot envs =
        match (storedConfigs tokenize DEVICE_ID envs).getLast? with
        | some c => some c
        | none => slot := by
  intro envs
  induction envs with
  | nil => intro slot; simp [runFetchCycles, storedConfigs]
  | cons env envs ih =>
    intro slot
    rw [runFetchCycles, ih]
    rcases h : fetchAndUpdateConfig tokenize DEVICE_ID env with e | c
    · rw [fetchCycle_error tokenize DEVICE_ID slot env e h]
      have hs : storedConfigs tokenize DEVICE_ID (env :: envs) =
          storedConfigs tokenize DEVICE_ID envs := by
        simp [storedConfigs, h, Except.toOption]
      rw [hs]
    · have hc : fetchCycle tokenize DEVICE_ID slot env = some c := by
        simp [fetchCycle, h]
      have hs : storedConfigs tokenize DEVICE_ID (env :: envs) =
          c :: storedConfigs tokenize DEVICE_ID envs := by
        simp [storedConfigs, h, Except.toOption]
      rw [hc, hs]
      rcases hl : (storedConfigs tokenize DEVICE_ID envs).getLast? with _ | d
      · have hnil : storedConfigs tokenize DEVICE_ID envs = [] :=
          List.getLast?_eq_none_iff.mp hl
        rw [hnil]
        rfl
      · have hne : storedConfigs tokenize DEVICE_ID envs ≠ [] := by
          intro hcontra
          rw [hcontra] at hl
          exact Option.noConfusion hl
        rcases hx : storedConfigs tokenize DEVICE_ID envs with _ | ⟨x, l⟩
        · exact absurd hx hne
        · rw [hx] at hl
          rw [List.getLast?_cons_cons, hl]

theorem deserializeBoundedSeq_overflow {α : Type} (cap : Nat) :
    ∀ (elems acc : List α), acc.length ≤ cap → cap < acc.length + elems.length →
      deserializeBoundedSeq cap acc elems = none := by
  intro elems
  induction elems with
  | nil =>
    intro acc h1 h2
    exfalso
    simp at h2
    omega
  | cons x xs ih =>
    intro acc h1 h2
    by_cases hlt : acc.length < cap
    · have : deserializeBoundedSeq cap acc (x :: xs) =
          deserializeBoundedSeq cap (acc ++ [x]) xs := by
        simp [deserializeBoundedSeq, vecPush, hlt]
      rw [this]
      refine ih (acc ++ [x]) ?_ ?_
      · simp
        omega
      · simp at h2 ⊢
        omega
    · simp [deserializeBoundedSeq, vecPush, hlt]

theorem runStoreOps_initialized :
    ∀ (ops : List StoreOp) (w : StoreWorld), w.ref_set = true →
      ∃ w2, runStoreOps w ops = Except.ok w2 ∧ w2.ref_set = true := by
  intro ops
  induction ops with
  | nil => intro w hw; exact ⟨w, rfl, hw⟩
  | cons op ops ih =>
    intro w hw
    cases op with
    | setConfig config =>
      have hset : setDeviceConfig w config = Except.ok { w with slot := some config } := by
        simp [setDeviceConfig, hw]
      rcases ih { w with slot := some config } hw with ⟨w2, h2, h3⟩
      exact ⟨w2, by rw [runStoreOps, hset]; exact h2, h3⟩
    | getConfig =>
      have hget : getDeviceConfig w = Except.ok (w.slot, w) := by
        simp [getDeviceConfig, hw]
      rcases ih w hw with ⟨w2, h2, h3⟩
      exact ⟨w2, by rw [runStoreOps, hget]; exact h2, h3⟩

/-! ## The claims -/

/-- C1 counterexample: over 61 iterations (two completed 30-iteration rounds
of send failures plus the following attempt), the delays of the all-failures
trace and of the all-successes trace are identical — sixty-one fixed 1000 ms
waits, with three send attempts in each trace.  So the delay after a round of
failures does not double (it stays the loop's constant 1 s), failures do not
shorten or lengthen any wait, and no backoff or retry counter exists in
telemetry_task for a success to reset. -/
theorem C1_counterexample :
    waitsOf (telemetryRun (fun _ => false) 0 61) = List.replicate 61 1000 ∧
      waitsOf (telemetryRun (fun _ => true) 0 61) = List.replicate 61 1000 ∧
      attemptCount (telemetryRun (fun _ => false) 0 61) = 3 ∧
      attemptCount (telemetryRun (fun _ => true) 0 61) = 3 := by
  decide

/-- C1 (amended): telemetry_task has no retry state or backoff — for every
send-outcome oracle, every starting counter and every number of iterations,
the loop waits exactly 1000 ms per iteration, and its wait sequence and its
number of send attempts are independent of the outcomes of the sends. -/
theorem C1_no_backoff (sendResult altResult : Nat → Bool) (i k : Nat) :
    waitsOf (telemetryRun sendResult i k) = List.replicate k 1000 ∧
      waitsOf (telemetryRun sendResult i k) = waitsOf (telemetryRun altResult i k) ∧
      attemptCount (telemetryRun sendResult i k) =
        attemptCount (telemetryRun altResult i k) := by
  induction k generalizing i with
  | zero => simp [telemetryRun, waitsOf, attemptCount]
  | succ k ih =>
    refine ⟨?_, ?_, ?_⟩
    · rw [telemetryRun, waitsOf_append, waitsOf_step, (ih (i + 1)).1,
        List.replicate_succ]
      rfl
    · rw [telemetryRun, telemetryRun, waitsOf_append, waitsOf_append,
        waitsOf_step, waitsOf_step, (ih (i + 1)).2.1]
    · rw [telemetryRun, telemetryRun, attemptCount_append, attemptCount_append,
        attemptCount_step, attemptCount_step, (ih (i + 1)).2.2]

/-- C2 counterexample: a fully successful exchange whose response text is
"HTTP/1.1 404 Not Found" is logged as non-200 (classification false) but
send_telemetry still returns Ok — it does not fail with
TelemetryError.InvalidResponse as the claim states. -/
theorem C2_counterexample :
    sendTelemetry ⟨some [1], true, true, some "HTTP/1.1 404 Not Found"⟩ =
      (Except.ok (), some false) := by
  rfl

/-- C2 (amended): send_telemetry never returns InvalidResponse; whenever a
response is read, the call returns Ok, and the logged classification is true
exactly when the text contains "HTTP/1.1 200" or "HTTP/1.0 200" — so a 200
response is classified as accepted and any other content is merely logged as
a non-200 warning while the send still counts as successful. -/
theorem C2_response_classification :
    (∀ env : SendEnv, (sendTelemetry env).1 ≠ Except.error TelemetryError.InvalidResponse) ∧
    (∀ (env : SendEnv) (b : Bool), (sendTelemetry env).2 = some b →
      (sendTelemetry env).1 = Except.ok () ∧
      ∀ response, env.read_result = some response →
        b = (strContains response "HTTP/1.1 200" || strContains response "HTTP/1.0 200")) := by
  constructor
  · intro env
    rcases env with ⟨dns, conn, wr, rd⟩
    unfold sendTelemetry
    rcases dns with _ | addrs
    · simp
    · rcases addrs with _ | ⟨a, rest⟩ <;> rcases conn <;> rcases wr <;> rcases rd <;> simp
  · intro env b h2
    rcases env with ⟨dns, conn, wr, rd⟩
    unfold sendTelemetry at h2 ⊢
    rcases dns with _ | addrs
    · simp at h2
    · rcases addrs with _ | ⟨a, rest⟩ <;> rcases conn <;> rcases wr <;> rcases rd <;>
        simp_all

/-- Witness for C2 at a concrete environment whose response is a 200 status
line. -/
theorem C2_witness :
    (sendTelemetry ⟨some [1], true, true, some "HTTP/1.1 200 OK"⟩).2 = some true ∧
      (sendTelemetry ⟨some [1], true, true, some "HTTP/1.1 200 OK"⟩).1 = Except.ok () :=
  ⟨by decide,
    (C2_response_classification.2 ⟨some [1], true, true, some "HTTP/1.1 200 OK"⟩ true
      (by decide)).1⟩

/-- C9 counterexample: build.rs injects DEVICE_ID (defaulting to
"YOUR_DEVICE_ID") as the build-time device identifier, yet the body written
by send_telemetry carries the hard-coded literal "1" — so for that build the
body is not of the claimed form with the device's own identifier. -/
theorem C9_counterexample :
    telemetryData "25.0" "3.30" ≠ specTelemetryBody "YOUR_DEVICE_ID" "25.0" "3.30" := by
  decide

/-- C9 (amended): for every pair of formatted readings, the JSON body written
in the HTTP POST request has exactly the claimed shape with string-valued
readings, but with the device_id field hard-coded to the literal "1" rather
than the build-time DEVICE_ID constant. -/
theorem C9_body_shape (temp volt : String) :
    telemetryData temp volt = specTelemetryBody "1" temp volt := by
  rfl

/-- C6 counterexample: with an empty network name, connect_with_retry makes no
join attempt and waits for nothing (as the claim says), but the error value it
returns is WiFiError.Join — the same generic join-failure constructor used
elsewhere — not a dedicated InvalidCredentials error; indeed the WiFiError enum
in src/error/mod.rs has no InvalidCredentials constructor at all.  The join
oracle here would succeed on every attempt, so the early return is visible. -/
theorem C6_counterexample :
    connectWithRetry ⟨"", "secret", 3, 5⟩ (fun _ => none) =
      (Except.error WiFiError.Join, 0, []) := by
  unfold connectWithRetry
  rw [if_pos (by decide : (("" : String).isEmpty || ("secret" : String).isEmpty) = true)]

/-- C6 (amended): for every WiFiConfig whose network name or password is empty,
connect_with_retry returns WiFiError.Join immediately, making zero join
attempts and awaiting zero delays. -/
theorem C6_empty_credentials (config : WiFiConfig) (join : Nat → Option Nat)
    (h : config.network.isEmpty || config.password.isEmpty) :
    connectWithRetry config join = (Except.error WiFiError.Join, 0, []) := by
  unfold connectWithRetry
  rw [if_pos h]

/-- Witness for C6 at a concrete configuration with an empty password. -/
theorem C6_witness :
    (("wifi" : String).isEmpty || ("" : String).isEmpty) = true ∧
      connectWithRetry ⟨"wifi", "", 10, 5⟩ (fun _ => none) =
        (Except.error WiFiError.Join, 0, []) :=
  ⟨by decide, C6_empty_credentials ⟨"wifi", "", 10, 5⟩ (fun _ => none) (by decide)⟩

/-- C7: with non-empty credentials and max_retries = 3, if every join attempt
fails then connect_with_retry returns the retries-exhausted error
(WiFiError.Timeout) after exactly 3 join attempts, and exactly the two failed
attempts other than the last are each followed by a fixed delay of
retry_delay_secs seconds, with no backoff growth. -/
theorem C7_three_failed_attempts (config : WiFiConfig) (join : Nat → Option Nat)
    (status : Nat → Nat)
    (hn : config.network.isEmpty = false) (hp : config.password.isEmpty = false)
    (hm : config.max_retries = 3) (hj : ∀ i, join i = some (status i)) :
    connectWithRetry config join =
      (Except.error WiFiError.Timeout, 3,
        [config.retry_delay_secs, config.retry_delay_secs]) := by
  unfold connectWithRetry
  rw [hn, hp, hm]
  simp only [Bool.or_self, Bool.false_eq_true, if_false]
  rw [connectLoop, hj 0]
  rw [connectLoop, hj 1]
  rw [connectLoop, hj 2]
  simp

/-- Witness for C7 at a concrete configuration where every join fails with
chip status 7. -/
theorem C7_witness :
    ("wifi" : String).isEmpty = false ∧ ("pass" : String).isEmpty = false ∧
      connectWithRetry ⟨"wifi", "pass", 3, 5⟩ (fun _ => some 7) =
        (Except.error WiFiError.Timeout, 3, [5, 5]) :=
  ⟨by decide, by decide,
    C7_three_failed_attempts ⟨"wifi", "pass", 3, 5⟩ (fun _ => some 7) (fun _ => 7)
      (by decide) (by decide) rfl (fun _ => rfl)⟩

/-- C8 (code bug): the link-up phase does poll every 500 ms, but its
countdown starts at 10 and is decremented once per 500 ms poll, so the phase
gives the link only 10 polls times 0.5 s = 5 s — not the 10 s the claim (and
the source's own comment "10 seconds timeout" and its "seconds remaining"
log line) promise.  Concretely: DHCP is up from the start and the link comes
up 6 s in, well inside the claimed 10 s window, yet setup_and_wait fails,
having waited exactly 5000 ms. -/
theorem C8_link_timeout_bug :
    setupAndWait (fun _ => true) (fun t => decide (6000 ≤ t)) = (false, 5000) := by
  decide

/-- C3: the shared configuration store yields None before the first
successful fetch-parse-match cycle, afterwards yields exactly the
configuration stored by the most recent successful cycle, and a cycle that
fails at any step (DNS, no address, connect, write, read, UTF-8, JSON
locate or parse, or no matching device — every Except.error of
fetch_and_update_config) leaves the stored value unchanged. -/
theorem C3_store_semantics (tokenize : String → Option (List DeviceConfigItem))
    (DEVICE_ID : String) :
    (∀ envs : List FetchEnv,
        (∀ env ∈ envs, ∃ e, fetchAndUpdateConfig tokenize DEVICE_ID env = Except.error e) →
        runFetchCycles tokenize DEVICE_ID none envs = none) ∧
    (∀ (slot : Option DeviceConfigItem) (env : FetchEnv) (e : String),
        fetchAndUpdateConfig tokenize DEVICE_ID env = Except.error e →
        fetchCycle tokenize DEVICE_ID slot env = slot) ∧
    (∀ (slot : Option DeviceConfigItem) (envs : List FetchEnv),
        runFetchCycles tokenize DEVICE_ID slot envs =
          match (storedConfigs tokenize DEVICE_ID envs).getLast? with
          | some c => some c
          | none => slot) ∧
    (∀ w : StoreWorld, w.ref_set = true → getDeviceConfig w = Except.ok (w.slot, w)) := by
  refine ⟨?_, ?_, ?_, ?_⟩
  · intro envs hall
    rw [runFetchCycles_eq]
    have hs : storedConfigs tokenize DEVICE_ID envs = [] := by
      rw [storedConfigs, List.filterMap_eq_nil_iff]
      intro env hmem
      rcases hall env hmem with ⟨e, he⟩
      simp [he, Except.toOption]
    rw [hs]
    rfl
  · intro slot env e h
    exact fetchCycle_error tokenize DEVICE_ID slot env e h
  · intro slot envs
    exact runFetchCycles_eq tokenize DEVICE_ID envs slot
  · intro w hw
    simp [getDeviceConfig, hw]

/-- Witness for C3: a concrete run of three cycles — a failing one, a
successful one storing cfg0, then another failing one — starting from the
empty store: the store stays None over the first cycle and holds cfg0 from
the successful cycle on, the final failure leaving it unchanged. -/
theorem C3_witness :
    runFetchCycles (fun _ => some [⟨"dev", ⟨some "on"⟩⟩]) "dev" none
        [⟨none, true, true, none, true⟩] = none ∧
      fetchCycle (fun _ => some [⟨"dev", ⟨some "on"⟩⟩]) "dev"
          (some ⟨"dev", ⟨some "on"⟩⟩) ⟨none, true, true, none, true⟩ =
        some ⟨"dev", ⟨some "on"⟩⟩ ∧
      runFetchCycles (fun _ => some [⟨"dev", ⟨some "on"⟩⟩]) "dev" none
          [⟨none, true, true, none, true⟩,
           ⟨some [1], true, true, some "HTTP/1.1 200 OK\r\n\r\n[]", true⟩,
           ⟨none, true, true, none, true⟩] =
        some ⟨"dev", ⟨some "on"⟩⟩ ∧
      getDeviceConfig ⟨true, some ⟨"dev", ⟨some "on"⟩⟩⟩ =
        Except.ok (some ⟨"dev", ⟨some "on"⟩⟩, ⟨true, some ⟨"dev", ⟨some "on"⟩⟩⟩) := by
  refine ⟨?_, ?_, ?_, ?_⟩
  · exact (C3_store_semantics (fun _ => some [⟨"dev", ⟨some "on"⟩⟩]) "dev").1
      [⟨none, true, true, none, true⟩]
      (by intro env hmem; simp at hmem; subst hmem; exact ⟨"DNS resolution failed", rfl⟩)
  · exact (C3_store_semantics (fun _ => some [⟨"dev", ⟨some "on"⟩⟩]) "dev").2.1
      (some ⟨"dev", ⟨some "on"⟩⟩) ⟨none, true, true, none, true⟩
      "DNS resolution failed" rfl
  · rw [(C3_store_semantics (fun _ => some [⟨"dev", ⟨some "on"⟩⟩]) "dev").2.2.1]
    rfl
  · exact (C3_store_semantics (fun _ => some [⟨"dev", ⟨some "on"⟩⟩]) "dev").2.2.2
      ⟨true, some ⟨"dev", ⟨some "on"⟩⟩⟩ rfl

/-- C4: whatever entries the configuration response parses to and in
whatever order, the only configuration item a fetch cycle can hand to
set_device_config is one whose device_id equals this device's own
identifier. -/
theorem C4_only_matching_stored (tokenize : String → Option (List DeviceConfigItem))
    (DEVICE_ID : String) (env : FetchEnv) (device_config : DeviceConfigItem)
    (h : fetchAndUpdateConfig tokenize DEVICE_ID env = Except.ok device_config) :
    device_config.device_id = DEVICE_ID := by
  unfold fetchAndUpdateConfig at h
  repeat' split at h
  all_goals try exact Except.noConfusion h
  next parsed found heq =>
    injection h with h2
    subst h2
    have hp := List.find?_some heq
    exact eq_of_beq hp

/-- Witness for C4 at a concrete environment whose response parses to a
single entry for this device. -/
theorem C4_witness :
    fetchAndUpdateConfig (fun _ => some [⟨"dev", ⟨some "on"⟩⟩]) "dev"
        ⟨some [1], true, true, some "HTTP/1.1 200 OK\r\n\r\n[]", true⟩ =
      Except.ok ⟨"dev", ⟨some "on"⟩⟩ ∧
      (⟨"dev", ⟨some "on"⟩⟩ : DeviceConfigItem).device_id = "dev" :=
  ⟨by rfl,
    C4_only_matching_stored (fun _ => some [⟨"dev", ⟨some "on"⟩⟩]) "dev"
      ⟨some [1], true, true, some "HTTP/1.1 200 OK\r\n\r\n[]", true⟩
      ⟨"dev", ⟨some "on"⟩⟩ (by rfl)⟩

/-- C5: when a configuration response reaching the parse step spells out
more entries than MAX_CONFIGS, the build-time capacity of the response
vector, the parse fails cleanly with the "JSON parse error" message — the
fetch cycle fails and the stored configuration is untouched, with no
overflow and no truncated store. -/
theorem C5_capacity_overflow (tokenize : String → Option (List DeviceConfigItem))
    (DEVICE_ID : String) (env : FetchEnv) (a : Nat) (addrs : List Nat)
    (response : String) (json_chars : List Char) (elems : List DeviceConfigItem)
    (hdns : env.dns_addrs = some (a :: addrs))
    (hconn : env.connect_ok = true) (hwrite : env.write_ok = true)
    (hread : env.read_bytes = some response) (hutf : env.utf8_ok = true)
    (hbr : dropBeforeBracket response.data = some json_chars)
    (htok : tokenize (String.mk json_chars) = some elems)
    (hlen : MAX_CONFIGS < elems.length) :
    fetchAndUpdateConfig tokenize DEVICE_ID env = Except.error "JSON parse error" ∧
      ∀ slot, fetchCycle tokenize DEVICE_ID slot env = slot := by
  have hover : deserializeBoundedSeq MAX_CONFIGS ([] : List DeviceConfigItem) elems = none :=
    deserializeBoundedSeq_overflow MAX_CONFIGS elems [] (by simp) (by simpa using hlen)
  have hmain : fetchAndUpdateConfig tokenize DEVICE_ID env = Except.error "JSON parse error" := by
    simp [fetchAndUpdateConfig, hdns, hconn, hwrite, hread, hutf, hbr, htok, hover]
  exact ⟨hmain, fun slot => fetchCycle_error tokenize DEVICE_ID slot env _ hmain⟩

/-- Witness for C5: a concrete response that parses to two entries while
MAX_CONFIGS is 1. -/
theorem C5_witness :
    fetchAndUpdateConfig (fun _ => some [⟨"dev", ⟨some "on"⟩⟩, ⟨"dev2", ⟨none⟩⟩]) "dev"
        ⟨some [1], true, true, some "HTTP/1.1 200 OK\r\n\r\n[]", true⟩ =
      Except.error "JSON parse error" ∧
      ∀ slot, fetchCycle (fun _ => some [⟨"dev", ⟨some "on"⟩⟩, ⟨"dev2", ⟨none⟩⟩]) "dev"
          slot ⟨some [1], true, true, some "HTTP/1.1 200 OK\r\n\r\n[]", true⟩ = slot :=
  C5_capacity_overflow (fun _ => some [⟨"dev", ⟨some "on"⟩⟩, ⟨"dev2", ⟨none⟩⟩]) "dev"
    ⟨some [1], true, true, some "HTTP/1.1 200 OK\r\n\r\n[]", true⟩ 1 []
    "HTTP/1.1 200 OK\r\n\r\n[]" ("[]".data) [⟨"dev", ⟨some "on"⟩⟩, ⟨"dev2", ⟨none⟩⟩]
    rfl rfl rfl rfl rfl (by rfl) rfl (by decide)

/-- C10: before init_config_store has run, both set_device_config and
get_device_config panic with "Config store not initialized" rather than
returning or silently doing nothing; once init_config_store has run, no
sequence of set and get operations can ever reach that panic branch
again. -/
theorem C10_panic_before_init :
    (∀ config, setDeviceConfig startupWorld config =
        Except.error "Config store not initialized") ∧
    getDeviceConfig startupWorld = Except.error "Config store not initialized" ∧
    (∀ (w : StoreWorld) (ops : List StoreOp),
        ∃ w2, runStoreOps (initConfigStore w) ops = Except.ok w2) := by
  refine ⟨fun config => rfl, rfl, fun w ops => ?_⟩
  rcases runStoreOps_initialized ops (initConfigStore w) rfl with ⟨w2, h2, _⟩
  exact ⟨w2, h2⟩

end RpRot
